import Mathlib

/-!
Verification of `wifi_capture.cpp` (whispr-dev/sdr): a shallow embedding of the
2.4 GHz Wi-Fi channel mapper, the streaming capture loop, and the end-to-end
`main` pipeline, with the external SoapySDR library and the file system modelled
as an explicit environment oracle.
-/

namespace WifiCapture

/-- SoapySDR sample-format name for complex float32 (SOAPY_SDR_CF32). -/
def SOAPY_SDR_CF32 : String := "CF32"

/-- SoapySDR sample-format name for complex int16 (SOAPY_SDR_CS16). -/
def SOAPY_SDR_CS16 : String := "CS16"

/-- SoapySDR sentinel for a read timeout (SOAPY_SDR_TIMEOUT in Errors.h). -/
def SOAPY_SDR_TIMEOUT : Int := -1

/-- SoapySDR sentinel for an overflow (SOAPY_SDR_OVERFLOW in Errors.h). -/
def SOAPY_SDR_OVERFLOW : Int := -4

/-- `wifi2g_ch_to_hz` (wifi_capture.cpp lines 25-29): map a 2.4 GHz Wi-Fi
channel to its center frequency in Hz.  The C++ computes
`(2412.0 + 5.0 * (ch - 1)) * 1e6` in IEEE double; every intermediate value is
an integer far below 2^53, so the double arithmetic is exact and `Rat` models
it faithfully.  An unsupported channel throws `std::runtime_error`, modelled
as `Except.error`. -/
def wifi2g_ch_to_hz (ch : Int) : Except String Rat :=
  if 1 ≤ ch ∧ ch ≤ 13 then Except.ok ((2412 + 5 * ((ch : Rat) - 1)) * 1000000)
  else if ch = 14 then Except.ok (2484 * 1000000)
  else Except.error "Unsupported 2.4 GHz channel"

/-- Element size in bytes for a sample-format string (line 142):
`fmt == SOAPY_SDR_CF32 ? sizeof(float)*2 : sizeof(int16_t)*2`. -/
def elemSize (fmt : String) : Nat :=
  if fmt = SOAPY_SDR_CF32 then 8 else 4

/-- Binary file extension for a sample-format string (line 154):
`fmt == SOAPY_SDR_CF32 ? ".cf32" : ".cs16"`. -/
def binExt (fmt : String) : String :=
  if fmt = SOAPY_SDR_CF32 then ".cf32" else ".cs16"

/-- One iteration's worth of external inputs to the streaming loop
(lines 164-187): the value `g_stop.load()` returns at the loop head, the
elapsed wall-clock seconds computed at line 166, the `readStream` return value
(sample count or negative sentinel), the bytes the read leaves in the buffer,
and the element count `fwrite` reports written for a successful read. -/
structure IterInput where
  stop : Bool
  elapsed : Rat
  ret : Int
  data : List Nat
  fwriteElems : Nat
deriving DecidableEq

/-- Why the streaming loop exited. -/
inductive ExitReason where
  | cancelled
  | durationExpired
  | fatalRead (code : Int)
  | shortWrite
deriving DecidableEq

/-- The loop's mutable state: `totalSamps` (line 160), the bytes written to the
binary output file so far, the stderr messages the loop emitted, and the number
of `readStream` calls issued. -/
structure LoopState where
  totalSamps : Nat
  fileBytes : List Nat
  log : List String
  reads : Nat
deriving DecidableEq

/-- The streaming loop of wifi_capture.cpp lines 164-187, driven by a finite
trace of per-iteration external inputs.  Per iteration: check `g_stop`, check
elapsed ≥ seconds, issue the read, then classify: timeout continues, overflow
warns and continues, any other negative code logs and breaks, a success writes
`ret` elements (`fwrite` reporting fewer is a short-write break, before
`totalSamps` is incremented) and accumulates.  Returns `none` when the trace
runs out before the loop exits. -/
def runLoop (seconds : Rat) (es : Nat) :
    LoopState → List IterInput → LoopState × Option ExitReason
  | s, [] => (s, none)
  | s, e :: rest =>
    if e.stop then (s, some ExitReason.cancelled)
    else if seconds ≤ e.elapsed then (s, some ExitReason.durationExpired)
    else
      let s1 : LoopState := { s with reads := s.reads + 1 }
      if e.ret = SOAPY_SDR_TIMEOUT then runLoop seconds es s1 rest
      else if e.ret = SOAPY_SDR_OVERFLOW then
        runLoop seconds es { s1 with log := s1.log ++ ["[warn] OVERFLOW"] } rest
      else if e.ret < 0 then
        ({ s1 with log := s1.log ++ ["[err ] readStream ret=" ++ toString e.ret] },
         some (ExitReason.fatalRead e.ret))
      else
        let n : Nat := e.ret.toNat
        let s2 : LoopState :=
          { s1 with fileBytes := s1.fileBytes ++ e.data.take (e.fwriteElems * es) }
        if e.fwriteElems ≠ n then
          ({ s2 with log := s2.log ++ ["[err ] fwrite short write"] },
           some ExitReason.shortWrite)
        else
          runLoop seconds es { s2 with totalSamps := s2.totalSamps + n } rest

/-- Calls `main` makes into the SoapySDR library and the file system, in
program order. -/
inductive Ev where
  | enumerate
  | make
  | setSampleRate (rate : Rat)
  | setBandwidth (bw : Rat)
  | setFrequency (freq : Rat)
  | setDCOffsetMode
  | setIQBalance
  | setGain
  | getStreamMTU
  | setupStream (fmt : String)
  | activateStream
  | deactivateStream
  | closeStream
  | unmake
  | fcloseEv
  | sidecarWrite (nsamps : Nat)
deriving DecidableEq

/-- How the process ended: `exited code` for a `return`/`exit`, `terminated`
for an uncaught C++ exception (`std::terminate`), `outOfTrace` when the
supplied read trace ended before the loop exited (a model artifact: the real
loop would still be running). -/
inductive Outcome where
  | exited (code : Nat)
  | terminated
  | outOfTrace
deriving DecidableEq

/-- The metadata record `write_sidecar_json` (lines 46-67) serializes. -/
structure SidecarRec where
  radio : String
  driver : String
  centerHz : Rat
  rate : Rat
  samples : Nat
  fmt : String
  ts : String
deriving DecidableEq

/-- Model of `write_sidecar_json` (lines 46-67): it opens the sidecar path and
streams one JSON record; the ofstream's failure state is never checked and the
function emits no diagnostic, so on open failure no file is produced and
nothing is reported. -/
def write_sidecar_json (openOk : Bool) (radio driver : String)
    (centerHz rate : Rat) (nsamps : Nat) (fmt ts : String) : Option SidecarRec :=
  if openOk then some ⟨radio, driver, centerHz, rate, nsamps, fmt, ts⟩ else none

/-- The resolved CLI configuration (lines 77-98 defaults and overrides). -/
structure Config where
  devArgs : String
  wifiCh : Int
  sampRate : Rat
  rfBw : Rat
  gain : Rat
  outDir : String
  seconds : Rat
  fmt : String
deriving DecidableEq

/-- The environment oracle: everything outside the program's control — the
enumeration result, whether `Device::make`/`setupStream`/`fopen` succeed,
the device MTU, the wall-clock timestamp, whether each best-effort correction
call throws, whether the sidecar ofstream opens, and the per-iteration loop
inputs. -/
structure Env where
  enumNonempty : Bool
  enumLabel : String
  enumDriver : String
  makeOk : Bool
  setupOk : Bool
  fopenOk : Bool
  mtu : Nat
  ts : String
  dcThrows : Bool
  iqThrows : Bool
  gainThrows : Bool
  sidecarOpenOk : Bool
  trace : List IterInput
deriving DecidableEq

/-- Model of a `try { call } catch(...) {}` block (lines 129-132): the call is
made (its event recorded) whether or not the callee throws; a thrown exception
is caught by the catch-all and discarded, so nothing else happens. -/
def tryBestEffort (e : Ev) (callThrows : Bool) : List Ev :=
  match (if callThrows then Except.error () else Except.ok () : Except Unit Unit) with
  | Except.ok _ => [e]
  | Except.error _ => [e]

/-- Observable result of one run of `main`. -/
structure RunResult where
  outcome : Outcome
  events : List Ev
  totalSamps : Nat
  fileBytes : List Nat
  exitReason : Option ExitReason
  stderrLog : List String
  sidecarFile : Option SidecarRec
  binPath : String
deriving DecidableEq

/-- The library/file-system calls `main` has made by the time the stream is
activated (lines 112-146), in program order. -/
def preLoopEvents (cfg : Config) (env : Env) (freq : Rat) : List Ev :=
  [Ev.enumerate, Ev.make,
   Ev.setSampleRate cfg.sampRate, Ev.setBandwidth cfg.rfBw, Ev.setFrequency freq]
  ++ tryBestEffort Ev.setDCOffsetMode env.dcThrows
  ++ tryBestEffort Ev.setIQBalance env.iqThrows
  ++ tryBestEffort Ev.setGain env.gainThrows
  ++ [Ev.getStreamMTU, Ev.setupStream cfg.fmt, Ev.activateStream]

/-- The fixed teardown sequence of lines 189-192. -/
def teardownEvents : List Ev :=
  [Ev.deactivateStream, Ev.closeStream, Ev.unmake, Ev.fcloseEv]

/-- The artifact base path of lines 135-137: `outDir/wifi2g_ch<ch>_<freq>Hz_<rate>sps_<ts>`
with frequency and rate truncated to integers (the `static_cast<uint64_t>`). -/
def basePath (cfg : Config) (env : Env) (freq : Rat) : String :=
  cfg.outDir ++ "/wifi2g_ch" ++ toString cfg.wifiCh ++ "_"
    ++ toString freq.floor.toNat ++ "Hz_"
    ++ toString cfg.sampRate.floor.toNat ++ "sps_" ++ env.ts

/-- `main` of wifi_capture.cpp (lines 69-201), CLI parsing aside: enumerate
(empty list exits 1), construct the device (null exits 1), map the channel (an
unsupported channel throws out of `main`: `terminated`), apply the three
setters, attempt the three best-effort corrections, query the MTU, set up the
stream (null exits 1), activate it, open the binary output file (failure
returns 1 immediately — note: without any stream teardown), run the streaming
loop, then unconditionally tear down, write the sidecar, log, and return 0. -/
def runMain (cfg : Config) (env : Env) : RunResult :=
  if env.enumNonempty = false then
    { outcome := Outcome.exited 1, events := [Ev.enumerate], totalSamps := 0,
      fileBytes := [], exitReason := none,
      stderrLog := ["No SDR devices found"], sidecarFile := none, binPath := "" }
  else
    let log0 : List String := ["Found device(s). Using first."]
    if env.makeOk = false then
      { outcome := Outcome.exited 1, events := [Ev.enumerate, Ev.make], totalSamps := 0,
        fileBytes := [], exitReason := none,
        stderrLog := log0 ++ ["Device::make failed"], sidecarFile := none, binPath := "" }
    else
      match wifi2g_ch_to_hz cfg.wifiCh with
      | Except.error _ =>
        { outcome := Outcome.terminated, events := [Ev.enumerate, Ev.make], totalSamps := 0,
          fileBytes := [], exitReason := none,
          stderrLog := log0, sidecarFile := none, binPath := "" }
      | Except.ok freq =>
        let es : Nat := elemSize cfg.fmt
        let base : String := basePath cfg env freq
        if env.setupOk = false then
          { outcome := Outcome.exited 1,
            events := (preLoopEvents cfg env freq).dropLast, totalSamps := 0,
            fileBytes := [], exitReason := none,
            stderrLog := log0 ++ ["setupStream failed"], sidecarFile := none, binPath := "" }
        else
          let binPath : String := base ++ binExt cfg.fmt
          if env.fopenOk = false then
            { outcome := Outcome.exited 1, events := preLoopEvents cfg env freq,
              totalSamps := 0, fileBytes := [], exitReason := none,
              stderrLog := log0 ++ ["Failed to open output"], sidecarFile := none,
              binPath := binPath }
          else
            match runLoop cfg.seconds es ⟨0, [], [], 0⟩ env.trace with
            | (s, none) =>
              { outcome := Outcome.outOfTrace, events := preLoopEvents cfg env freq,
                totalSamps := s.totalSamps, fileBytes := s.fileBytes, exitReason := none,
                stderrLog := log0 ++ ["Capturing"] ++ s.log, sidecarFile := none,
                binPath := binPath }
            | (s, some r) =>
              { outcome := Outcome.exited 0,
                events := preLoopEvents cfg env freq ++ teardownEvents
                            ++ [Ev.sidecarWrite s.totalSamps],
                totalSamps := s.totalSamps, fileBytes := s.fileBytes,
                exitReason := some r,
                stderrLog := log0 ++ ["Capturing"] ++ s.log ++ ["Done.", "Sidecar path"],
                sidecarFile := write_sidecar_json env.sidecarOpenOk env.enumLabel
                                 env.enumDriver freq cfg.sampRate s.totalSamps cfg.fmt env.ts,
                binPath := binPath }

/-- Result of the minimal CLI parse of lines 88-109: `ok` falls through to the
rest of `main`, `helpExit` is the `--help` `return 0`, `exit2` is the
`std::exit(2)` the `need` lambda performs when a flag's value is missing. -/
inductive CliOut where
  | ok
  | helpExit
  | exit2
deriving DecidableEq

/-- The flags whose handler calls `need` (lines 91-98), i.e. those that consume
a following value. -/
def valueFlags : List String :=
  ["--args", "--chan", "--rate", "--bw", "--gain", "--out", "--secs", "--fmt"]

/-- The CLI loop of lines 88-109: a value flag with no following token exits 2
(`need`), a value flag with a token consumes it, `--help` returns 0
immediately, anything else is ignored. -/
def parseArgs : List String → CliOut
  | [] => CliOut.ok
  | a :: rest =>
    if a ∈ valueFlags then
      match rest with
      | [] => CliOut.exit2
      | _ :: rest2 => parseArgs rest2
    else if a = "--help" then CliOut.helpExit
    else parseArgs rest

/-- A loop iteration that takes the success branch with a full write: not
stopped, inside the duration, a non-negative read count, and `fwrite` reporting
exactly that many elements written. -/
def fullSuccess (secs : Rat) (e : IterInput) : Prop :=
  e.stop = false ∧ e.elapsed < secs ∧ 0 ≤ e.ret ∧ e.fwriteElems = e.ret.toNat

instance (secs : Rat) (e : IterInput) : Decidable (fullSuccess secs e) := by
  unfold fullSuccess; infer_instance

/-- What the hardware and C library guarantee about one iteration's inputs:
the buffer holds `mtu * es` bytes (line 150), `readStream` delivers at most
`mtu` samples (it was asked for `mtu`, line 171), and `fwrite` reports at most
the element count it was asked to write. -/
def validEvent (mtu es : Nat) (e : IterInput) : Prop :=
  e.data.length = mtu * es ∧ e.ret.toNat ≤ mtu ∧ e.fwriteElems ≤ e.ret.toNat

instance (mtu es : Nat) (e : IterInput) : Decidable (validEvent mtu es e) := by
  unfold validEvent; infer_instance

/-- An iteration whose read returns a fatal code: negative but neither the
timeout nor the overflow sentinel, reached inside the duration. -/
def fatalCode (secs : Rat) (e : IterInput) : Prop :=
  e.stop = false ∧ e.elapsed < secs ∧ e.ret < 0 ∧
    e.ret ≠ SOAPY_SDR_TIMEOUT ∧ e.ret ≠ SOAPY_SDR_OVERFLOW

instance (secs : Rat) (e : IterInput) : Decidable (fatalCode secs e) := by
  unfold fatalCode; infer_instance

/-- A fixed configuration used by the concrete evaluations: channel 6,
complex-int16 encoding (element size 4 bytes), 10-second duration. -/
def cfgA : Config :=
  { devArgs := "", wifiCh := 6, sampRate := 1, rfBw := 1, gain := 1,
    outDir := "d", seconds := 10, fmt := SOAPY_SDR_CS16 }

/-- A configuration whose channel (0) is outside [1, 14]. -/
def cfgBadCh : Config :=
  { cfgA with wifiCh := 0 }

/-- A configuration whose format string is not a SoapySDR format name. -/
def cfgBogusFmt : Config :=
  { cfgA with fmt := "BOGUS" }

/-- An environment where every external call succeeds; the trace is a single
iteration whose elapsed time has reached the duration, so the loop exits
normally at once. -/
def envDur : Env :=
  { enumNonempty := true, enumLabel := "L", enumDriver := "D", makeOk := true,
    setupOk := true, fopenOk := true, mtu := 2, ts := "TS", dcThrows := false,
    iqThrows := false, gainThrows := false, sidecarOpenOk := true,
    trace := [⟨false, 10, 0, [], 0⟩] }

/-- Like `envDur` but the sidecar ofstream fails to open. -/
def envDurNoSide : Env :=
  { envDur with sidecarOpenOk := false }

/-- Like `envDur` but the read delivers 2 samples and `fwrite` reports only 1
element written: the short-write exit path. -/
def envShort : Env :=
  { envDur with trace := [⟨false, 0, 2, [1, 2, 3, 4, 5, 6, 7, 8], 1⟩] }

/-- Like `envDur` but the binary output file fails to open (after the stream
was activated). -/
def envNoFopen : Env :=
  { envDur with fopenOk := false }

/-- Like `envDur` but the trace is one fully successful read of 3 samples
followed by a fatal read error (code -2), then trailing junk the loop never
consumes. -/
def envFatal : Env :=
  { envDur with
    trace := [⟨false, 0, 3, [1, 2, 3, 4, 5, 6, 7, 8, 9, 10, 11, 12], 3⟩,
              ⟨false, 0, -2, [], 0⟩, ⟨true, 0, 0, [], 0⟩] }

/-- Like `envDur` but the cancellation flag is set at the first iteration. -/
def envCancel : Env :=
  { envDur with trace := [⟨true, 0, 0, [], 0⟩, ⟨false, 0, 5, [], 5⟩] }

/-- Twelve buffer bytes: one MTU's worth at mtu = 3, element size 4. -/
def twelve : List Nat := [1, 2, 3, 4, 5, 6, 7, 8, 9, 10, 11, 12]

/-- Environment whose trace satisfies `validEvent` throughout (mtu 3, element
size 4): one full success of 3 samples, then a fatal read error. -/
def envValid : Env :=
  { envDur with
    mtu := 3
    trace := [⟨false, 0, 3, twelve, 3⟩, ⟨false, 0, -2, twelve, 0⟩] }

/-- Environment running 2 successful reads of 3 samples each, then a
duration-expired iteration. -/
def envNk : Env :=
  { envDur with
    mtu := 3
    trace := List.replicate 2 ⟨false, 0, (3 : Int), twelve, 3⟩
               ++ [⟨false, 10, 0, [], 0⟩] }

theorem runLoop_stop {secs : Rat} {es : Nat} {s : LoopState} {e : IterInput}
    {rest : List IterInput} (h : e.stop = true) :
    runLoop secs es s (e :: rest) = (s, some ExitReason.cancelled) := by
  simp [runLoop, h]

theorem runLoop_duration {secs : Rat} {es : Nat} {s : LoopState} {e : IterInput}
    {rest : List IterInput} (h1 : e.stop = false) (h2 : secs ≤ e.elapsed) :
    runLoop secs es s (e :: rest) = (s, some ExitReason.durationExpired) := by
  simp [runLoop, h1, h2]

theorem runLoop_timeout {secs : Rat} {es : Nat} {s : LoopState} {e : IterInput}
    {rest : List IterInput} (h1 : e.stop = false) (h2 : e.elapsed < secs)
    (h3 : e.ret = SOAPY_SDR_TIMEOUT) :
    runLoop secs es s (e :: rest) =
      runLoop secs es ⟨s.totalSamps, s.fileBytes, s.log, s.reads + 1⟩ rest := by
  have h2' : ¬ (secs ≤ e.elapsed) := not_le.mpr h2
  simp [runLoop, h1, h2', h3]

theorem runLoop_overflow {secs : Rat} {es : Nat} {s : LoopState} {e : IterInput}
    {rest : List IterInput} (h1 : e.stop = false) (h2 : e.elapsed < secs)
    (h3 : e.ret = SOAPY_SDR_OVERFLOW) :
    runLoop secs es s (e :: rest) =
      runLoop secs es ⟨s.totalSamps, s.fileBytes, s.log ++ ["[warn] OVERFLOW"], s.reads + 1⟩ rest := by
  have h2' : ¬ (secs ≤ e.elapsed) := not_le.mpr h2
  simp [runLoop, h1, h2', h3, SOAPY_SDR_OVERFLOW, SOAPY_SDR_TIMEOUT]

theorem runLoop_fatal {secs : Rat} {es : Nat} {s : LoopState} {e : IterInput}
    {rest : List IterInput} (h1 : e.stop = false) (h2 : e.elapsed < secs)
    (h3 : e.ret < 0) (h4 : e.ret ≠ SOAPY_SDR_TIMEOUT) (h5 : e.ret ≠ SOAPY_SDR_OVERFLOW) :
    runLoop secs es s (e :: rest) =
      (⟨s.totalSamps, s.fileBytes,
        s.log ++ ["[err ] readStream ret=" ++ toString e.ret], s.reads + 1⟩,
       some (ExitReason.fatalRead e.ret)) := by
  have h2' : ¬ (secs ≤ e.elapsed) := not_le.mpr h2
  simp [runLoop, h1, h2', h3, h4, h5]

theorem runLoop_success {secs : Rat} {es : Nat} {s : LoopState} {e : IterInput}
    {rest : List IterInput} (h1 : e.stop = false) (h2 : e.elapsed < secs)
    (h3 : 0 ≤ e.ret) (h4 : e.fwriteElems = e.ret.toNat) :
    runLoop secs es s (e :: rest) =
      runLoop secs es
        ⟨s.totalSamps + e.ret.toNat, s.fileBytes ++ e.data.take (e.ret.toNat * es),
         s.log, s.reads + 1⟩ rest := by
  have h2' : ¬ (secs ≤ e.elapsed) := not_le.mpr h2
  have ht : e.ret ≠ SOAPY_SDR_TIMEOUT := by unfold SOAPY_SDR_TIMEOUT; omega
  have ho : e.ret ≠ SOAPY_SDR_OVERFLOW := by unfold SOAPY_SDR_OVERFLOW; omega
  have hn : ¬ (e.ret < 0) := not_lt.mpr h3
  simp [runLoop, h1, h2', ht, ho, hn, h4]

theorem runLoop_short {secs : Rat} {es : Nat} {s : LoopState} {e : IterInput}
    {rest : List IterInput} (h1 : e.stop = false) (h2 : e.elapsed < secs)
    (h3 : 0 ≤ e.ret) (h4 : e.fwriteElems ≠ e.ret.toNat) :
    runLoop secs es s (e :: rest) =
      (⟨s.totalSamps, s.fileBytes ++ e.data.take (e.fwriteElems * es),
        s.log ++ ["[err ] fwrite short write"], s.reads + 1⟩,
       some ExitReason.shortWrite) := by
  have h2' : ¬ (secs ≤ e.elapsed) := not_le.mpr h2
  have ht : e.ret ≠ SOAPY_SDR_TIMEOUT := by unfold SOAPY_SDR_TIMEOUT; omega
  have ho : e.ret ≠ SOAPY_SDR_OVERFLOW := by unfold SOAPY_SDR_OVERFLOW; omega
  have hn : ¬ (e.ret < 0) := not_lt.mpr h3
  simp [runLoop, h1, h2', ht, ho, hn, h4]

/-- Running the loop over a block of fully successful reads accumulates their
sample counts and appends their written bytes, then continues with the rest of
the trace. -/
theorem runLoop_append_fullSuccess (secs : Rat) (es : Nat) :
    ∀ (pre : List IterInput), (∀ e ∈ pre, fullSuccess secs e) →
      ∀ (s : LoopState) (rest : List IterInput),
      runLoop secs es s (pre ++ rest) =
        runLoop secs es
          ⟨s.totalSamps + (pre.map fun e => e.ret.toNat).sum,
           s.fileBytes ++ (pre.map fun e => e.data.take (e.ret.toNat * es)).flatten,
           s.log, s.reads + pre.length⟩ rest := by
  intro pre
  induction pre with
  | nil => intro _ s rest; simp
  | cons e pre ih =>
    intro h s rest
    obtain ⟨h1, h2, h3, h4⟩ := h e (List.mem_cons_self e pre)
    rw [List.cons_append, runLoop_success h1 h2 h3 h4,
      ih (fun x hx => h x (List.mem_cons_of_mem e hx))]
    congr 1
    simp only [List.map_cons, List.sum_cons, List.flatten_cons, List.length_cons,
      LoopState.mk.injEq]
    refine ⟨by omega, by simp [List.append_assoc], trivial, by omega⟩

/-- The central length invariant: as long as the loop has not exited through
the short-write branch, the bytes in the binary file are exactly
`totalSamps * es` — whole elements only. -/
theorem runLoop_len (secs : Rat) (es mtu : Nat) :
    ∀ (trace : List IterInput) (s : LoopState),
      (∀ e ∈ trace, validEvent mtu es e) →
      s.fileBytes.length = s.totalSamps * es →
      ∀ (s' : LoopState) (r : Option ExitReason),
        runLoop secs es s trace = (s', r) → r ≠ some ExitReason.shortWrite →
        s'.fileBytes.length = s'.totalSamps * es := by
  intro trace
  induction trace with
  | nil =>
    intro s _ hinv s' r hrun _
    simp only [runLoop] at hrun
    injection hrun with hs hr
    rw [← hs]; exact hinv
  | cons e rest ih =>
    intro s hv hinv s' r hrun hne
    cases hstop : e.stop with
    | true =>
      rw [runLoop_stop hstop] at hrun
      injection hrun with hs hr
      rw [← hs]; exact hinv
    | false =>
      rcases le_or_lt secs e.elapsed with hd | hd
      · rw [runLoop_duration hstop hd] at hrun
        injection hrun with hs hr
        rw [← hs]; exact hinv
      · by_cases htmo : e.ret = SOAPY_SDR_TIMEOUT
        · rw [runLoop_timeout hstop hd htmo] at hrun
          exact ih ⟨s.totalSamps, s.fileBytes, s.log, s.reads + 1⟩
            (fun x hx => hv x (List.mem_cons_of_mem e hx)) hinv s' r hrun hne
        · by_cases hovf : e.ret = SOAPY_SDR_OVERFLOW
          · rw [runLoop_overflow hstop hd hovf] at hrun
            exact ih ⟨s.totalSamps, s.fileBytes, s.log ++ ["[warn] OVERFLOW"], s.reads + 1⟩
              (fun x hx => hv x (List.mem_cons_of_mem e hx)) hinv s' r hrun hne
          · by_cases hneg : e.ret < 0
            · rw [runLoop_fatal hstop hd hneg htmo hovf] at hrun
              injection hrun with hs hr
              rw [← hs]; exact hinv
            · have h0 : 0 ≤ e.ret := not_lt.mp hneg
              by_cases hfw : e.fwriteElems = e.ret.toNat
              · rw [runLoop_success hstop hd h0 hfw] at hrun
                refine ih _ (fun x hx => hv x (List.mem_cons_of_mem e hx)) ?_ s' r hrun hne
                obtain ⟨hlen, hmtu, _⟩ := hv e (List.mem_cons_self e rest)
                have htk : (e.data.take (e.ret.toNat * es)).length = e.ret.toNat * es := by
                  rw [List.length_take, hlen]
                  exact min_eq_left (Nat.mul_le_mul_right es hmtu)
                simp only [List.length_append, htk, hinv, add_mul]
              · rw [runLoop_short hstop hd h0 hfw] at hrun
                injection hrun with hs hr
                exact absurd hr.symm hne

theorem tryBestEffort_eq (e : Ev) (b : Bool) : tryBestEffort e b = [e] := by
  cases b <;> rfl

theorem runMain_noDevices (cfg : Config) (env : Env) (h : env.enumNonempty = false) :
    runMain cfg env =
      { outcome := Outcome.exited 1, events := [Ev.enumerate], totalSamps := 0,
        fileBytes := [], exitReason := none, stderrLog := ["No SDR devices found"],
        sidecarFile := none, binPath := "" } := by
  simp [runMain, h]

theorem runMain_makeFailed (cfg : Config) (env : Env)
    (h1 : env.enumNonempty = true) (h2 : env.makeOk = false) :
    runMain cfg env =
      { outcome := Outcome.exited 1, events := [Ev.enumerate, Ev.make], totalSamps := 0,
        fileBytes := [], exitReason := none,
        stderrLog := ["Found device(s). Using first.", "Device::make failed"],
        sidecarFile := none, binPath := "" } := by
  simp [runMain, h1, h2]

theorem runMain_badChannel (cfg : Config) (env : Env) (msg : String)
    (h1 : env.enumNonempty = true) (h2 : env.makeOk = true)
    (hch : wifi2g_ch_to_hz cfg.wifiCh = Except.error msg) :
    runMain cfg env =
      { outcome := Outcome.terminated, events := [Ev.enumerate, Ev.make], totalSamps := 0,
        fileBytes := [], exitReason := none,
        stderrLog := ["Found device(s). Using first."],
        sidecarFile := none, binPath := "" } := by
  simp [runMain, h1, h2, hch]

theorem runMain_setupFailed (cfg : Config) (env : Env) (freq : Rat)
    (h1 : env.enumNonempty = true) (h2 : env.makeOk = true)
    (hch : wifi2g_ch_to_hz cfg.wifiCh = Except.ok freq)
    (h3 : env.setupOk = false) :
    runMain cfg env =
      { outcome := Outcome.exited 1, events := (preLoopEvents cfg env freq).dropLast,
        totalSamps := 0, fileBytes := [], exitReason := none,
        stderrLog := ["Found device(s). Using first.", "setupStream failed"],
        sidecarFile := none, binPath := "" } := by
  simp [runMain, h1, h2, hch, h3]

theorem runMain_fopenFailed (cfg : Config) (env : Env) (freq : Rat)
    (h1 : env.enumNonempty = true) (h2 : env.makeOk = true)
    (hch : wifi2g_ch_to_hz cfg.wifiCh = Except.ok freq)
    (h3 : env.setupOk = true) (h4 : env.fopenOk = false) :
    runMain cfg env =
      { outcome := Outcome.exited 1, events := preLoopEvents cfg env freq,
        totalSamps := 0, fileBytes := [], exitReason := none,
        stderrLog := ["Found device(s). Using first.", "Failed to open output"],
        sidecarFile := none, binPath := basePath cfg env freq ++ binExt cfg.fmt } := by
  simp [runMain, h1, h2, hch, h3, h4]

theorem runMain_outOfTrace (cfg : Config) (env : Env) (freq : Rat) (s : LoopState)
    (h1 : env.enumNonempty = true) (h2 : env.makeOk = true)
    (hch : wifi2g_ch_to_hz cfg.wifiCh = Except.ok freq)
    (h3 : env.setupOk = true) (h4 : env.fopenOk = true)
    (hloop : runLoop cfg.seconds (elemSize cfg.fmt) ⟨0, [], [], 0⟩ env.trace = (s, none)) :
    runMain cfg env =
      { outcome := Outcome.outOfTrace, events := preLoopEvents cfg env freq,
        totalSamps := s.totalSamps, fileBytes := s.fileBytes, exitReason := none,
        stderrLog := "Found device(s). Using first." :: "Capturing" :: s.log,
        sidecarFile := none, binPath := basePath cfg env freq ++ binExt cfg.fmt } := by
  simp [runMain, h1, h2, hch, h3, h4, hloop]

theorem runMain_loopExit (cfg : Config) (env : Env) (freq : Rat) (s : LoopState)
    (r : ExitReason)
    (h1 : env.enumNonempty = true) (h2 : env.makeOk = true)
    (hch : wifi2g_ch_to_hz cfg.wifiCh = Except.ok freq)
    (h3 : env.setupOk = true) (h4 : env.fopenOk = true)
    (hloop : runLoop cfg.seconds (elemSize cfg.fmt) ⟨0, [], [], 0⟩ env.trace = (s, some r)) :
    runMain cfg env =
      { outcome := Outcome.exited 0,
        events := preLoopEvents cfg env freq ++ teardownEvents
                    ++ [Ev.sidecarWrite s.totalSamps],
        totalSamps := s.totalSamps, fileBytes := s.fileBytes, exitReason := some r,
        stderrLog := "Found device(s). Using first." :: "Capturing"
                       :: (s.log ++ ["Done.", "Sidecar path"]),
        sidecarFile := write_sidecar_json env.sidecarOpenOk env.enumLabel env.enumDriver
                         freq cfg.sampRate s.totalSamps cfg.fmt env.ts,
        binPath := basePath cfg env freq ++ binExt cfg.fmt } := by
  simp [runMain, h1, h2, hch, h3, h4, hloop]

/-- Inversion: if a run records a loop exit reason, every guard before the loop
succeeded and the loop itself exited with that reason. -/
theorem reached_loop (cfg : Config) (env : Env) (r : ExitReason)
    (h : (runMain cfg env).exitReason = some r) :
    env.enumNonempty = true ∧ env.makeOk = true ∧
    (∃ freq, wifi2g_ch_to_hz cfg.wifiCh = Except.ok freq) ∧
    env.setupOk = true ∧ env.fopenOk = true ∧
    ∃ s, runLoop cfg.seconds (elemSize cfg.fmt) ⟨0, [], [], 0⟩ env.trace = (s, some r) := by
  cases h1 : env.enumNonempty with
  | false => rw [runMain_noDevices cfg env h1] at h; simp at h
  | true =>
    cases h2 : env.makeOk with
    | false => rw [runMain_makeFailed cfg env h1 h2] at h; simp at h
    | true =>
      cases hch : wifi2g_ch_to_hz cfg.wifiCh with
      | error msg => rw [runMain_badChannel cfg env msg h1 h2 hch] at h; simp at h
      | ok freq =>
        cases h3 : env.setupOk with
        | false => rw [runMain_setupFailed cfg env freq h1 h2 hch h3] at h; simp at h
        | true =>
          cases h4 : env.fopenOk with
          | false => rw [runMain_fopenFailed cfg env freq h1 h2 hch h3 h4] at h; simp at h
          | true =>
            rcases hloop : runLoop cfg.seconds (elemSize cfg.fmt) ⟨0, [], [], 0⟩ env.trace
              with ⟨s, ro⟩
            cases ro with
            | none =>
              rw [runMain_outOfTrace cfg env freq s h1 h2 hch h3 h4 hloop] at h
              simp at h
            | some r2 =>
              rw [runMain_loopExit cfg env freq s r2 h1 h2 hch h3 h4 hloop] at h
              simp at h
              subst h
              exact ⟨rfl, rfl, ⟨freq, rfl⟩, rfl, rfl, s, rfl⟩

/-- C3: for every integer channel c in [1,13] the channel mapper returns
2412e6 + 5e6*(c-1) Hz; for channel 14 it returns exactly 2484e6 Hz; for every
integer outside [1,14] it fails with the unsupported-channel error, and `main`
then terminates without issuing any device-configuration call (its event log
stops at enumerate, make). -/
theorem channel_mapper_spec :
    (∀ c : Int, 1 ≤ c → c ≤ 13 →
      wifi2g_ch_to_hz c = Except.ok (2412000000 + 5000000 * ((c : Rat) - 1)))
    ∧ wifi2g_ch_to_hz 14 = Except.ok 2484000000
    ∧ (∀ c : Int, c < 1 ∨ 14 < c →
      wifi2g_ch_to_hz c = Except.error "Unsupported 2.4 GHz channel")
    ∧ (∀ (cfg : Config) (env : Env), cfg.wifiCh < 1 ∨ 14 < cfg.wifiCh →
      env.enumNonempty = true → env.makeOk = true →
      (runMain cfg env).outcome = Outcome.terminated ∧
      (runMain cfg env).events = [Ev.enumerate, Ev.make]) := by
  refine ⟨?_, ?_, ?_, ?_⟩
  · intro c hc1 hc13
    unfold wifi2g_ch_to_hz
    rw [if_pos ⟨hc1, hc13⟩]
    congr 1
    ring
  · unfold wifi2g_ch_to_hz
    rw [if_neg (by omega), if_pos rfl]
    norm_num
  · intro c hc
    unfold wifi2g_ch_to_hz
    rw [if_neg (by omega), if_neg (by omega)]
  · intro cfg env hc h1 h2
    have herr : wifi2g_ch_to_hz cfg.wifiCh = Except.error "Unsupported 2.4 GHz channel" := by
      unfold wifi2g_ch_to_hz
      rw [if_neg (by omega), if_neg (by omega)]
    rw [runMain_badChannel cfg env _ h1 h2 herr]
    exact ⟨rfl, rfl⟩

/-- Witness for C3 at concrete inputs: channel 5 maps to 2432 MHz, channels 0
and 15 fail, and a run with channel 0 terminates before configuration. -/
theorem channel_mapper_spec_witness :
    wifi2g_ch_to_hz 5 = Except.ok (2412000000 + 5000000 * ((5 : Rat) - 1))
    ∧ wifi2g_ch_to_hz 0 = Except.error "Unsupported 2.4 GHz channel"
    ∧ wifi2g_ch_to_hz 15 = Except.error "Unsupported 2.4 GHz channel"
    ∧ (runMain cfgBadCh envDur).outcome = Outcome.terminated := by
  obtain ⟨h1, _, h3, h4⟩ := channel_mapper_spec
  exact ⟨h1 5 (by decide) (by decide), h3 0 (by decide), h3 15 (by decide),
    (h4 cfgBadCh envDur (by decide) rfl rfl).1⟩

/-- C5: a read that returns the overflow sentinel inside the duration emits
the warning, writes nothing to the file, leaves the accumulated count (and
every other state component except the log and the read counter) unchanged,
and the loop continues with the rest of the trace; in particular an overflow
alone never ends the loop (on a trace ending there the loop is still
running). -/
theorem overflow_warns_discards_continues (secs : Rat) (es : Nat) (s : LoopState)
    (e : IterInput) (rest : List IterInput)
    (h1 : e.stop = false) (h2 : e.elapsed < secs) (h3 : e.ret = SOAPY_SDR_OVERFLOW) :
    runLoop secs es s (e :: rest) =
      runLoop secs es ⟨s.totalSamps, s.fileBytes, s.log ++ ["[warn] OVERFLOW"], s.reads + 1⟩ rest
    ∧ runLoop secs es s [e] =
      (⟨s.totalSamps, s.fileBytes, s.log ++ ["[warn] OVERFLOW"], s.reads + 1⟩, none) := by
  refine ⟨runLoop_overflow h1 h2 h3, ?_⟩
  rw [runLoop_overflow h1 h2 h3]
  rfl

/-- Witness for C5: a concrete overflow read (code -4) at time 0 of a
10-second capture from the initial state. -/
theorem overflow_warns_discards_continues_witness :
    runLoop 10 4 ⟨0, [], [], 0⟩ [⟨false, 0, -4, [], 0⟩, ⟨false, 10, 0, [], 0⟩] =
      runLoop 10 4 ⟨0, [], ["[warn] OVERFLOW"], 1⟩ [⟨false, 10, 0, [], 0⟩]
    ∧ runLoop 10 4 ⟨0, [], [], 0⟩ [⟨false, 0, -4, [], 0⟩] =
      (⟨0, [], ["[warn] OVERFLOW"], 1⟩, none) := by
  exact overflow_warns_discards_continues 10 4 ⟨0, [], [], 0⟩ ⟨false, 0, -4, [], 0⟩
    [⟨false, 10, 0, [], 0⟩] rfl (by decide) rfl

/-- C6: the loop head checks the cancellation flag before anything else — when
it is set the iteration issues no read (the read counter and all state are
unchanged, the remaining trace is not consumed) and the loop exits as
cancelled; when it is clear and elapsed time has reached the duration the loop
exits as normal duration termination; and for every exit reason whatsoever the
events that follow the loop are the same fixed teardown-then-sidecar
sequence. -/
theorem loop_guard_cancellation_duration :
    (∀ (secs : Rat) (es : Nat) (s : LoopState) (e : IterInput) (rest : List IterInput),
      e.stop = true →
      runLoop secs es s (e :: rest) = (s, some ExitReason.cancelled))
    ∧ (∀ (secs : Rat) (es : Nat) (s : LoopState) (e : IterInput) (rest : List IterInput),
      e.stop = false → secs ≤ e.elapsed →
      runLoop secs es s (e :: rest) = (s, some ExitReason.durationExpired))
    ∧ (∀ (cfg : Config) (env : Env) (r : ExitReason),
      (runMain cfg env).exitReason = some r →
      ∃ pre, (runMain cfg env).events
        = pre ++ teardownEvents ++ [Ev.sidecarWrite (runMain cfg env).totalSamps]) := by
  refine ⟨fun _ _ _ _ _ h => runLoop_stop h,
    fun _ _ _ _ _ h1 h2 => runLoop_duration h1 h2, ?_⟩
  intro cfg env r h
  obtain ⟨h1, h2, ⟨freq, hch⟩, h3, h4, st, hloop⟩ := reached_loop cfg env r h
  rw [runMain_loopExit cfg env freq st r h1 h2 hch h3 h4 hloop]
  exact ⟨preLoopEvents cfg env freq, rfl⟩

/-- Witness for C6: a set flag cancels a concrete loop without consuming the
pending read; an elapsed time equal to the duration ends it normally; and a
concrete completed run's events end in the teardown-then-sidecar sequence. -/
theorem loop_guard_cancellation_duration_witness :
    runLoop 10 4 ⟨0, [], [], 0⟩ [⟨true, 0, 0, [], 0⟩, ⟨false, 0, 5, [], 5⟩] =
      (⟨0, [], [], 0⟩, some ExitReason.cancelled)
    ∧ runLoop 10 4 ⟨0, [], [], 0⟩ [⟨false, 10, 0, [], 0⟩] =
      (⟨0, [], [], 0⟩, some ExitReason.durationExpired)
    ∧ ∃ pre, (runMain cfgA envCancel).events
        = pre ++ teardownEvents ++ [Ev.sidecarWrite (runMain cfgA envCancel).totalSamps] := by
  obtain ⟨hstop, hdur, hteardown⟩ := loop_guard_cancellation_duration
  exact ⟨hstop 10 4 ⟨0, [], [], 0⟩ ⟨true, 0, 0, [], 0⟩ [⟨false, 0, 5, [], 5⟩] rfl,
    hdur 10 4 ⟨0, [], [], 0⟩ ⟨false, 10, 0, [], 0⟩ [] rfl (by decide),
    hteardown cfgA envCancel ExitReason.cancelled (by decide)⟩

/-- C2 (divergence witness): when the binary output file fails to open after
the stream was activated, the process exits with code 1 without ever issuing
deactivateStream, closeStream, unmake or fclose — the teardown sequence the
claim requires on this path does not run. -/
theorem fopen_failure_skips_teardown :
    (runMain cfgA envNoFopen).outcome = Outcome.exited 1
    ∧ Ev.activateStream ∈ (runMain cfgA envNoFopen).events
    ∧ Ev.deactivateStream ∉ (runMain cfgA envNoFopen).events
    ∧ Ev.closeStream ∉ (runMain cfgA envNoFopen).events
    ∧ Ev.unmake ∉ (runMain cfgA envNoFopen).events
    ∧ Ev.fcloseEv ∉ (runMain cfgA envNoFopen).events := by
  decide

/-- C8: the three best-effort hardware corrections (DC-offset, IQ balance,
overall gain) swallow any error they raise: the entire observable run is
identical whatever subset of them throws, and on every completed run all three
calls were made. -/
theorem best_effort_corrections_suppressed :
    (∀ (cfg : Config) (env : Env) (b1 b2 b3 : Bool),
      runMain cfg { env with dcThrows := b1, iqThrows := b2, gainThrows := b3 }
        = runMain cfg env)
    ∧ (∀ (cfg : Config) (env : Env) (r : ExitReason),
      (runMain cfg env).exitReason = some r →
      Ev.setDCOffsetMode ∈ (runMain cfg env).events
      ∧ Ev.setIQBalance ∈ (runMain cfg env).events
      ∧ Ev.setGain ∈ (runMain cfg env).events) := by
  refine ⟨?_, ?_⟩
  · intro cfg env b1 b2 b3
    simp [runMain, preLoopEvents, tryBestEffort_eq, basePath]
  · intro cfg env r h
    obtain ⟨h1, h2, ⟨freq, hch⟩, h3, h4, st, hloop⟩ := reached_loop cfg env r h
    rw [runMain_loopExit cfg env freq st r h1 h2 hch h3 h4 hloop]
    refine ⟨?_, ?_, ?_⟩ <;> simp [preLoopEvents, tryBestEffort_eq]

/-- Witness for C8: a concrete run where all three corrections throw equals
the run where none does, and the calls appear in the completed run's log. -/
theorem best_effort_corrections_suppressed_witness :
    runMain cfgA { envDur with dcThrows := true, iqThrows := true, gainThrows := true }
      = runMain cfgA envDur
    ∧ Ev.setGain ∈ (runMain cfgA envDur).events := by
  obtain ⟨hall, hmem⟩ := best_effort_corrections_suppressed
  exact ⟨hall cfgA envDur true true true,
    (hmem cfgA envDur ExitReason.durationExpired (by decide)).2.2⟩

/-- C10: the format string is never validated — every value other than the
CF32 name gets element size 4 and extension .cs16 (the CS16 defaults), the
string is passed verbatim to setupStream, and a run with a bogus format name
proceeds to a normal exit-code-0 completion instead of being rejected. -/
theorem fmt_not_validated :
    (∀ fmt : String, fmt ≠ SOAPY_SDR_CF32 → elemSize fmt = 4 ∧ binExt fmt = ".cs16")
    ∧ (∀ (cfg : Config) (env : Env) (r : ExitReason),
      (runMain cfg env).exitReason = some r →
      Ev.setupStream cfg.fmt ∈ (runMain cfg env).events
      ∧ (cfg.fmt ≠ SOAPY_SDR_CF32 →
          ∃ base, (runMain cfg env).binPath = base ++ ".cs16"))
    ∧ (runMain cfgBogusFmt envDur).outcome = Outcome.exited 0
    ∧ Ev.setupStream "BOGUS" ∈ (runMain cfgBogusFmt envDur).events := by
  refine ⟨?_, ?_, ?_, ?_⟩
  · intro fmt h
    exact ⟨by simp [elemSize, h], by simp [binExt, h]⟩
  · intro cfg env r h
    obtain ⟨h1, h2, ⟨freq, hch⟩, h3, h4, st, hloop⟩ := reached_loop cfg env r h
    rw [runMain_loopExit cfg env freq st r h1 h2 hch h3 h4 hloop]
    constructor
    · simp [preLoopEvents, tryBestEffort_eq]
    · intro hne
      exact ⟨basePath cfg env freq, by simp [binExt, hne]⟩
  · decide
  · decide

/-- Witness for C10: the bogus name "BOGUS" gets the CS16 element size and
extension, and its completed run's binary path ends in .cs16. -/
theorem fmt_not_validated_witness :
    elemSize "BOGUS" = 4 ∧ binExt "BOGUS" = ".cs16"
    ∧ ∃ base, (runMain cfgBogusFmt envDur).binPath = base ++ ".cs16" := by
  obtain ⟨hf, hs, _, _⟩ := fmt_not_validated
  exact ⟨(hf "BOGUS" (by decide)).1, (hf "BOGUS" (by decide)).2,
    (hs cfgBogusFmt envDur ExitReason.durationExpired (by decide)).2 (by decide)⟩

theorem parseArgs_cons_flag_nil (f : String) (h : f ∈ valueFlags) :
    parseArgs [f] = CliOut.exit2 := by
  rw [parseArgs.eq_def]
  simp [h]

theorem parseArgs_cons_flag (f b : String) (rest2 : List String) (h : f ∈ valueFlags) :
    parseArgs (f :: b :: rest2) = parseArgs rest2 := by
  rw [parseArgs.eq_def]
  simp [h]

theorem parseArgs_cons_help (rest : List String) :
    parseArgs ("--help" :: rest) = CliOut.helpExit := by
  rw [parseArgs.eq_def]
  simp [valueFlags]

theorem parseArgs_cons_other (a : String) (rest : List String)
    (h1 : a ∉ valueFlags) (h2 : a ≠ "--help") :
    parseArgs (a :: rest) = parseArgs rest := by
  rw [parseArgs.eq_def]
  simp [h1, h2]

/-- A fully consumed argument list parses compositionally: appending more
arguments parses them from where the first list left off. -/
theorem parseArgs_append_ok : ∀ (xs ys : List String), parseArgs xs = CliOut.ok →
    parseArgs (xs ++ ys) = parseArgs ys := by
  intro xs
  induction xs using parseArgs.induct with
  | case1 => intro ys _; rfl
  | case2 a h =>
    intro ys hok
    rw [parseArgs_cons_flag_nil a h] at hok
    exact absurd hok (by decide)
  | case3 a h b rest2 ih =>
    intro ys hok
    rw [parseArgs_cons_flag a b rest2 h] at hok
    rw [List.cons_append, List.cons_append, parseArgs_cons_flag a b (rest2 ++ ys) h]
    exact ih ys hok
  | case4 rest2 h =>
    intro ys hok
    rw [parseArgs_cons_help rest2] at hok
    exact absurd hok (by decide)
  | case5 a rest2 h1 h2 ih =>
    intro ys hok
    rw [parseArgs_cons_other a rest2 h1 h2] at hok
    rw [List.cons_append, parseArgs_cons_other a (rest2 ++ ys) h1 h2]
    exact ih ys hok

/-- C7: the exit code is 0 for every run that completes the streaming loop and
reaches teardown; 1 when enumeration is empty, device construction fails,
stream setup fails, or the binary output file cannot be opened; and the CLI
parser exits 2 exactly when a value-taking flag arrives with no following
value. -/
theorem exit_codes_spec :
    (∀ (cfg : Config) (env : Env) (r : ExitReason),
      (runMain cfg env).exitReason = some r → (runMain cfg env).outcome = Outcome.exited 0)
    ∧ (∀ (cfg : Config) (env : Env), env.enumNonempty = false →
      (runMain cfg env).outcome = Outcome.exited 1)
    ∧ (∀ (cfg : Config) (env : Env), env.enumNonempty = true → env.makeOk = false →
      (runMain cfg env).outcome = Outcome.exited 1)
    ∧ (∀ (cfg : Config) (env : Env) (freq : Rat), env.enumNonempty = true →
      env.makeOk = true → wifi2g_ch_to_hz cfg.wifiCh = Except.ok freq →
      env.setupOk = false → (runMain cfg env).outcome = Outcome.exited 1)
    ∧ (∀ (cfg : Config) (env : Env) (freq : Rat), env.enumNonempty = true →
      env.makeOk = true → wifi2g_ch_to_hz cfg.wifiCh = Except.ok freq →
      env.setupOk = true → env.fopenOk = false →
      (runMain cfg env).outcome = Outcome.exited 1)
    ∧ (∀ (args : List String) (f : String), f ∈ valueFlags →
      parseArgs args = CliOut.ok → parseArgs (args ++ [f]) = CliOut.exit2) := by
  refine ⟨?_, ?_, ?_, ?_, ?_, ?_⟩
  · intro cfg env r h
    obtain ⟨h1, h2, ⟨freq, hch⟩, h3, h4, st, hloop⟩ := reached_loop cfg env r h
    rw [runMain_loopExit cfg env freq st r h1 h2 hch h3 h4 hloop]
  · intro cfg env h
    rw [runMain_noDevices cfg env h]
  · intro cfg env h1 h2
    rw [runMain_makeFailed cfg env h1 h2]
  · intro cfg env freq h1 h2 hch h3
    rw [runMain_setupFailed cfg env freq h1 h2 hch h3]
  · intro cfg env freq h1 h2 hch h3 h4
    rw [runMain_fopenFailed cfg env freq h1 h2 hch h3 h4]
  · intro args f hf hok
    rw [parseArgs_append_ok args [f] hok]
    exact parseArgs_cons_flag_nil f hf

/-- Witness for C7: each exit-code case evaluated at a concrete run, and a
concrete dangling `--out` flag exiting 2. -/
theorem exit_codes_spec_witness :
    (runMain cfgA envDur).outcome = Outcome.exited 0
    ∧ (runMain cfgA { envDur with enumNonempty := false }).outcome = Outcome.exited 1
    ∧ (runMain cfgA { envDur with makeOk := false }).outcome = Outcome.exited 1
    ∧ (runMain cfgA { envDur with setupOk := false }).outcome = Outcome.exited 1
    ∧ (runMain cfgA envNoFopen).outcome = Outcome.exited 1
    ∧ parseArgs (["--chan", "6"] ++ ["--out"]) = CliOut.exit2 := by
  obtain ⟨p0, p1, p2, p3, p4, p5⟩ := exit_codes_spec
  have hch : wifi2g_ch_to_hz cfgA.wifiCh = Except.ok 2437000000 := by
    unfold cfgA wifi2g_ch_to_hz
    norm_num
  exact ⟨p0 cfgA envDur ExitReason.durationExpired (by decide), p1 cfgA _ rfl,
    p2 cfgA _ rfl rfl, p3 cfgA _ 2437000000 rfl rfl hch rfl,
    p4 cfgA envNoFopen 2437000000 rfl rfl hch rfl rfl,
    p5 ["--chan", "6"] "--out" (by decide) (by decide)⟩

/-- The default channel 6 maps to 2437 MHz. -/
theorem cfgA_channel : wifi2g_ch_to_hz cfgA.wifiCh = Except.ok 2437000000 := by
  unfold cfgA wifi2g_ch_to_hz
  norm_num

/-- C4: a read returning a fatal code (negative, neither timeout nor overflow)
after a block of fully successful reads makes the session log the code and
leave the loop at once: the binary file holds exactly the bytes of the prior
successful reads, the accumulated count is their sample sum, the partial
artifacts are still finalized (the sidecar-write event carries that count) and
the process exits 0. -/
theorem fatal_read_truncates_cleanly :
    ∀ (cfg : Config) (env : Env) (freq : Rat) (pre : List IterInput) (e : IterInput)
      (rest : List IterInput),
      env.enumNonempty = true → env.makeOk = true →
      wifi2g_ch_to_hz cfg.wifiCh = Except.ok freq →
      env.setupOk = true → env.fopenOk = true →
      env.trace = pre ++ e :: rest →
      (∀ x ∈ pre, fullSuccess cfg.seconds x) →
      fatalCode cfg.seconds e →
      (runMain cfg env).exitReason = some (ExitReason.fatalRead e.ret)
      ∧ (runMain cfg env).fileBytes
          = (pre.map fun x => x.data.take (x.ret.toNat * elemSize cfg.fmt)).flatten
      ∧ (runMain cfg env).totalSamps = (pre.map fun x => x.ret.toNat).sum
      ∧ (runMain cfg env).outcome = Outcome.exited 0
      ∧ ("[err ] readStream ret=" ++ toString e.ret) ∈ (runMain cfg env).stderrLog
      ∧ Ev.sidecarWrite ((pre.map fun x => x.ret.toNat).sum) ∈ (runMain cfg env).events := by
  intro cfg env freq pre e rest h1 h2 hch h3 h4 htr hpre hfat
  obtain ⟨hf1, hf2, hf3, hf4, hf5⟩ := hfat
  have hloop : runLoop cfg.seconds (elemSize cfg.fmt) ⟨0, [], [], 0⟩ env.trace =
      (⟨0 + (pre.map fun x => x.ret.toNat).sum,
        [] ++ (pre.map fun x => x.data.take (x.ret.toNat * elemSize cfg.fmt)).flatten,
        [] ++ ["[err ] readStream ret=" ++ toString e.ret], (0 + pre.length) + 1⟩,
       some (ExitReason.fatalRead e.ret)) := by
    rw [htr, runLoop_append_fullSuccess cfg.seconds (elemSize cfg.fmt) pre hpre
          ⟨0, [], [], 0⟩ (e :: rest),
        runLoop_fatal hf1 hf2 hf3 hf4 hf5]
  rw [runMain_loopExit cfg env freq _ _ h1 h2 hch h3 h4 hloop]
  refine ⟨rfl, by simp, by simp, rfl, by simp, by simp⟩

/-- Witness for C4: one successful 3-sample read then a -2 read, concretely:
the file keeps exactly the 12 bytes of the successful read, the count is 3,
and the exit code is 0. -/
theorem fatal_read_truncates_cleanly_witness :
    (runMain cfgA envFatal).exitReason = some (ExitReason.fatalRead (-2))
    ∧ (runMain cfgA envFatal).fileBytes = [1, 2, 3, 4, 5, 6, 7, 8, 9, 10, 11, 12]
    ∧ (runMain cfgA envFatal).totalSamps = 3
    ∧ (runMain cfgA envFatal).outcome = Outcome.exited 0 := by
  have h := fatal_read_truncates_cleanly cfgA envFatal 2437000000
    [⟨false, 0, 3, [1, 2, 3, 4, 5, 6, 7, 8, 9, 10, 11, 12], 3⟩]
    ⟨false, 0, -2, [], 0⟩ [⟨true, 0, 0, [], 0⟩]
    rfl rfl cfgA_channel rfl rfl rfl (by decide) (by decide)
  exact ⟨h.1, h.2.1.trans (by decide), h.2.2.1.trans (by decide), h.2.2.2.1⟩

/-- C1 (amended): at streaming-loop exit through any reason other than the
short-write break — and in particular for N successful reads of k samples each
before duration is exceeded — the binary file holds exactly
`totalSamps * elemSize` bytes, whole elements only, and the sidecar carries
that same count.  (On a short-write exit the file additionally holds the
elements the failed write delivered, which the count omits; see the
counterexample.) -/
theorem file_matches_count_unless_short_write :
    (∀ (cfg : Config) (env : Env) (r : ExitReason),
      (runMain cfg env).exitReason = some r →
      r ≠ ExitReason.shortWrite →
      (∀ e ∈ env.trace, validEvent env.mtu (elemSize cfg.fmt) e) →
      (runMain cfg env).fileBytes.length
        = (runMain cfg env).totalSamps * elemSize cfg.fmt
      ∧ Ev.sidecarWrite (runMain cfg env).totalSamps ∈ (runMain cfg env).events
      ∧ (env.sidecarOpenOk = true →
          ∃ sc, (runMain cfg env).sidecarFile = some sc
            ∧ sc.samples = (runMain cfg env).totalSamps))
    ∧ (∀ (cfg : Config) (env : Env) (freq : Rat) (N k : Nat) (d : List Nat),
      env.enumNonempty = true → env.makeOk = true →
      wifi2g_ch_to_hz cfg.wifiCh = Except.ok freq →
      env.setupOk = true → env.fopenOk = true →
      0 < cfg.seconds →
      k * elemSize cfg.fmt ≤ d.length →
      env.trace = List.replicate N ⟨false, 0, (k : Int), d, k⟩
                    ++ [⟨false, cfg.seconds, 0, [], 0⟩] →
      (runMain cfg env).totalSamps = N * k
      ∧ (runMain cfg env).fileBytes.length = N * k * elemSize cfg.fmt
      ∧ (runMain cfg env).exitReason = some ExitReason.durationExpired
      ∧ Ev.sidecarWrite (N * k) ∈ (runMain cfg env).events) := by
  constructor
  · intro cfg env r h hne hv
    obtain ⟨h1, h2, ⟨freq, hch⟩, h3, h4, st, hloop⟩ := reached_loop cfg env r h
    have hlen : st.fileBytes.length = st.totalSamps * elemSize cfg.fmt :=
      runLoop_len cfg.seconds (elemSize cfg.fmt) env.mtu env.trace ⟨0, [], [], 0⟩
        hv (by simp) st (some r) hloop (by simpa using hne)
    rw [runMain_loopExit cfg env freq st r h1 h2 hch h3 h4 hloop]
    refine ⟨hlen, by simp, ?_⟩
    intro hside
    exact ⟨⟨env.enumLabel, env.enumDriver, freq, cfg.sampRate, st.totalSamps, cfg.fmt, env.ts⟩,
      by simp [write_sidecar_json, hside], rfl⟩
  · intro cfg env freq N k d h1 h2 hch h3 h4 hpos hd htr
    have hfull : ∀ x ∈ List.replicate N (⟨false, 0, (k : Int), d, k⟩ : IterInput),
        fullSuccess cfg.seconds x := by
      intro x hx
      rw [List.eq_of_mem_replicate hx]
      exact ⟨rfl, hpos, Int.natCast_nonneg k, by simp⟩
    have hloop : runLoop cfg.seconds (elemSize cfg.fmt) ⟨0, [], [], 0⟩ env.trace =
        (⟨0 + (List.replicate N k).sum,
          [] ++ (List.replicate N (d.take (k * elemSize cfg.fmt))).flatten,
          [], 0 + N⟩, some ExitReason.durationExpired) := by
      rw [htr, runLoop_append_fullSuccess cfg.seconds (elemSize cfg.fmt) _ hfull
            ⟨0, [], [], 0⟩ _]
      rw [show (List.replicate N (⟨false, 0, (k : Int), d, k⟩ : IterInput)).map
            (fun x => x.ret.toNat) = List.replicate N k from by simp]
      rw [show (List.replicate N (⟨false, 0, (k : Int), d, k⟩ : IterInput)).map
            (fun x => x.data.take (x.ret.toNat * elemSize cfg.fmt))
            = List.replicate N (d.take (k * elemSize cfg.fmt)) from by simp]
      rw [show (List.replicate N (⟨false, 0, (k : Int), d, k⟩ : IterInput)).length = N from by
            simp]
      exact runLoop_duration rfl (le_refl cfg.seconds)
    rw [runMain_loopExit cfg env freq _ _ h1 h2 hch h3 h4 hloop]
    have hsum : (0 + (List.replicate N k).sum) = N * k := by
      simp [List.sum_replicate, smul_eq_mul]
    have hflen : ([] ++ (List.replicate N (d.take (k * elemSize cfg.fmt))).flatten).length
        = N * k * elemSize cfg.fmt := by
      simp [List.length_flatten, List.map_replicate, List.sum_replicate, smul_eq_mul,
        List.length_take, min_eq_left hd, Nat.mul_assoc]
    refine ⟨hsum, hflen, rfl, ?_⟩
    simp [hsum]

/-- Counterexample to C1 as stated: a read of 2 samples whose write lands only
1 element exits the loop via the short-write break with 4 bytes (one whole
element) in the file while the accumulated count — and the sidecar — say 0, so
the file does not contain `count * elemSize` bytes at this loop exit. -/
theorem short_write_breaks_file_count_invariant :
    (runMain cfgA envShort).exitReason = some ExitReason.shortWrite
    ∧ (runMain cfgA envShort).fileBytes.length
        ≠ (runMain cfgA envShort).totalSamps * elemSize cfgA.fmt
    ∧ (runMain cfgA envShort).fileBytes = [1, 2, 3, 4]
    ∧ (runMain cfgA envShort).totalSamps = 0
    ∧ ((runMain cfgA envShort).sidecarFile.map fun sc => sc.samples) = some 0 := by
  decide

/-- Witness for C1: a concrete valid-trace fatal-exit run satisfies the length
invariant, and a concrete 2-reads-of-3-samples run yields 6 samples and 24
file bytes. -/
theorem file_matches_count_unless_short_write_witness :
    (runMain cfgA envValid).fileBytes.length
      = (runMain cfgA envValid).totalSamps * elemSize cfgA.fmt
    ∧ (runMain cfgA envNk).totalSamps = 2 * 3
    ∧ (runMain cfgA envNk).fileBytes.length = 2 * 3 * elemSize cfgA.fmt := by
  obtain ⟨p1, p2⟩ := file_matches_count_unless_short_write
  have h1 := p1 cfgA envValid (ExitReason.fatalRead (-2)) (by decide) (by decide) (by decide)
  have h2 := p2 cfgA envNk 2437000000 2 3 twelve rfl rfl cfgA_channel rfl rfl
    (by decide) (by decide) rfl
  exact ⟨h1.1, h2.1, h2.2.1⟩

/-- C9 (amended): on every completed run the sidecar write happens exactly
once, as the last event, directly after the binary file's fclose, with the
final sample count; a sidecar open failure is silently ignored — it changes
neither the binary file, nor the exit code, nor a single stderr message — and
simply produces no sidecar file. -/
theorem sidecar_once_after_close_best_effort :
    ∀ (cfg : Config) (env : Env) (r : ExitReason),
      (runMain cfg env).exitReason = some r →
      (∃ pre, (runMain cfg env).events
          = pre ++ [Ev.fcloseEv, Ev.sidecarWrite (runMain cfg env).totalSamps]
        ∧ ∀ n, Ev.sidecarWrite n ∉ pre)
      ∧ (runMain cfg { env with sidecarOpenOk := false }).fileBytes
          = (runMain cfg env).fileBytes
      ∧ (runMain cfg { env with sidecarOpenOk := false }).outcome = Outcome.exited 0
      ∧ (runMain cfg { env with sidecarOpenOk := false }).stderrLog
          = (runMain cfg env).stderrLog
      ∧ (runMain cfg { env with sidecarOpenOk := false }).sidecarFile = none := by
  intro cfg env r h
  obtain ⟨h1, h2, ⟨freq, hch⟩, h3, h4, st, hloop⟩ := reached_loop cfg env r h
  have hloop2 : runLoop cfg.seconds (elemSize cfg.fmt) ⟨0, [], [], 0⟩
      ({ env with sidecarOpenOk := false }).trace = (st, some r) := hloop
  rw [runMain_loopExit cfg env freq st r h1 h2 hch h3 h4 hloop,
      runMain_loopExit cfg { env with sidecarOpenOk := false } freq st r h1 h2 hch h3 h4 hloop2]
  refine ⟨⟨preLoopEvents cfg env freq ++ [Ev.deactivateStream, Ev.closeStream, Ev.unmake],
      ?_, ?_⟩, rfl, rfl, ?_, rfl⟩
  · simp [teardownEvents]
  · intro n
    simp [preLoopEvents, tryBestEffort_eq]
  · rfl

/-- Counterexample to C9 as stated ("failure to open the sidecar path is
reported"): at a concrete run whose sidecar open fails, the program's stderr
output is identical, message for message, to the run where it succeeds — the
failure is not reported anywhere — while no sidecar file is produced. -/
theorem sidecar_open_failure_unreported :
    (runMain cfgA envDurNoSide).sidecarFile = none
    ∧ (runMain cfgA envDurNoSide).outcome = Outcome.exited 0
    ∧ (runMain cfgA envDurNoSide).stderrLog = (runMain cfgA envDur).stderrLog
    ∧ (runMain cfgA envDurNoSide).stderrLog
        = ["Found device(s). Using first.", "Capturing", "Done.", "Sidecar path"]
    ∧ (runMain cfgA envDurNoSide).fileBytes = (runMain cfgA envDur).fileBytes := by
  decide

/-- Witness for C9 at a concrete completed run: the failing-sidecar variant
still exits 0 with no sidecar file, and the events end fclose-then-sidecar. -/
theorem sidecar_once_after_close_best_effort_witness :
    (runMain cfgA { envDur with sidecarOpenOk := false }).sidecarFile = none
    ∧ (runMain cfgA { envDur with sidecarOpenOk := false }).outcome = Outcome.exited 0
    ∧ ∃ pre, (runMain cfgA envDur).events
        = pre ++ [Ev.fcloseEv, Ev.sidecarWrite (runMain cfgA envDur).totalSamps]
        ∧ ∀ n, Ev.sidecarWrite n ∉ pre := by
  have h := sidecar_once_after_close_best_effort cfgA envDur
    ExitReason.durationExpired (by decide)
  exact ⟨h.2.2.2.2, h.2.2.1, h.1⟩

end WifiCapture
